import Mathlib

/-!
Shallow embedding of the Session Manager and Credential Resolver of
`chat_agent.py` (class `ChatAgent`), together with theorems checking the
natural-language specification against the code.

The external completion collaborator (the OpenAI client call) is modelled as a
function parameter of type `Completion`; timestamps (`datetime.now()`) are
passed in explicitly; the process environment and the `.env` file are passed in
explicitly to the credential resolver.
-/

set_option autoImplicit false

namespace ChatAgentModel

/-- One entry of `conversation_history`: the dict built in
`ChatAgent.add_message` with keys `role`, `content`, `timestamp`. -/
structure Message where
  role : String
  content : String
  timestamp : String
  deriving Repr, DecidableEq

/-- A message as transmitted to the collaborator: only `role` and `content`
(the shape of the dicts built in `ChatAgent.get_response`, and of
`self.system_message`). -/
structure PayloadMessage where
  role : String
  content : String
  deriving Repr, DecidableEq

/-- The typed errors the `except` clauses of `ChatAgent.get_response`
distinguish: `openai.AuthenticationError`, `openai.RateLimitError`,
`openai.APIError` (carrying `str(e)`), and any other `Exception`. -/
inductive ApiError where
  | authenticationError
  | rateLimitError
  | apiError (msg : String)
  | otherError (msg : String)
  deriving Repr, DecidableEq

/-- The external completion collaborator
(`self.client.chat.completions.create`): receives the model, the message
payload, `max_tokens` and `temperature`; returns the reply text or raises one
of the typed errors. -/
def Completion : Type :=
  String → List PayloadMessage → Nat → ℚ → Except ApiError String

/-- The `temperature=0.7` constant of the API call in `get_response`. -/
def temp07 : ℚ := 7 / 10

/-- The mutable state of a `ChatAgent` instance: `self.model`,
`self.conversation_history`, `self.api_key`, `self.system_message`. -/
structure ChatAgent where
  model : String
  conversation_history : List Message
  api_key : String
  system_message : PayloadMessage
  deriving Repr, DecidableEq

/-- The `self.system_message` dict assigned in `ChatAgent.__init__`. -/
def initSystemMessage : PayloadMessage :=
  { role := "system"
    content := "You are a helpful AI assistant. Be friendly, informative, and concise in your responses." }

/-- `ChatAgent.add_message`: appends a dict with `role`, `content` and the
current timestamp to `self.conversation_history`. -/
def ChatAgent.add_message (a : ChatAgent) (role content timestamp : String) :
    ChatAgent :=
  { a with
    conversation_history :=
      a.conversation_history ++
        [{ role := role, content := content, timestamp := timestamp }] }

/-- Drops the `timestamp` key, as the loop in `get_response` does when it
builds the API payload (`{"role": msg["role"], "content": msg["content"]}`). -/
def stripTimestamp (m : Message) : PayloadMessage :=
  { role := m.role, content := m.content }

/-- The request payload built in `get_response` (lines 292–303):
`messages = [self.system_message]` followed by
`self.conversation_history[-10:]` with each message stripped of its
timestamp. -/
def ChatAgent.requestPayload (a : ChatAgent) : List PayloadMessage :=
  a.system_message ::
    (a.conversation_history.drop (a.conversation_history.length - 10)).map
      stripTimestamp

/-- The formatted error strings returned by the `except` clauses of
`get_response`. -/
def errorMessage : ApiError → String
  | .authenticationError =>
      "❌ Error: Invalid API key. Please check your OpenAI API key."
  | .rateLimitError =>
      "❌ Error: Rate limit exceeded. Please wait a moment and try again."
  | .apiError e => "❌ Error: OpenAI API error: " ++ e
  | .otherError e => "❌ Error: Unexpected error: " ++ e

/-- `ChatAgent.get_response`: appends the user message to history, builds the
payload (system message plus last 10 history messages, timestamps stripped),
calls the collaborator with `max_tokens=500`, `temperature=0.7`; on success
appends the reply as an assistant message and returns it; on any error returns
the formatted error string without appending an assistant message.  `t1` and
`t2` are the timestamps `datetime.now()` produces for the two `add_message`
calls. -/
def ChatAgent.get_response (a : ChatAgent) (complete : Completion)
    (user_message t1 t2 : String) : ChatAgent × String :=
  let a1 := a.add_message "user" user_message t1
  let messages := a1.requestPayload
  match complete a1.model messages 500 temp07 with
  | Except.ok ai_response =>
      (a1.add_message "assistant" ai_response t2, ai_response)
  | Except.error e => (a1, errorMessage e)

/-- `ChatAgent.clear_history`: `self.conversation_history.clear()`. -/
def ChatAgent.clear_history (a : ChatAgent) : ChatAgent :=
  { a with conversation_history := [] }

/-- Python's `str.title()` as used on `msg["role"]` in `show_history`: the
first letter of each alphabetic run is uppercased, the rest lowercased. -/
def titleCase (s : String) : String :=
  (s.foldl
    (fun (acc : String × Bool) c =>
      if c.isAlpha then
        (acc.1.push (if acc.2 then c.toLower else c.toUpper), true)
      else (acc.1.push c, false))
    ("", false)).1

/-- One display line of `show_history`
(`f"{i}. {role}: {content}"` with content truncated at 100 characters). -/
def historyLine (i : Nat) (m : Message) : String :=
  let role := titleCase m.role
  let content := m.content
  let content := if content.length > 100 then content.take 100 ++ "..." else content
  toString i ++ ". " ++ role ++ ": " ++ content

/-- The `"-" * 50` separator printed by `show_history`. -/
def separatorLine : String := String.mk (List.replicate 50 '-')

/-- `ChatAgent.show_history`: returns the (unchanged) agent state together with
the printed lines: the empty-history notice, or the header, separator, one
numbered line per message (numbering starting at 1), and the closing
separator. -/
def ChatAgent.show_history (a : ChatAgent) : ChatAgent × List String :=
  if a.conversation_history.isEmpty then
    (a, ["📝 No conversation history yet."])
  else
    (a,
      "\n📝 Conversation History:" :: separatorLine ::
        (a.conversation_history.enum.map (fun p => historyLine (p.1 + 1) p.2) ++
          [separatorLine]))

/-- A sequence of `get_response` calls against the same agent; each input is
`(user_message, t1, t2)`. Models the interactive loop driving one session. -/
def runTurns (a : ChatAgent) (complete : Completion)
    (inputs : List (String × String × String)) : ChatAgent :=
  inputs.foldl (fun s i => (s.get_response complete i.1 i.2.1 i.2.2).1) a

/-! ## Credential Resolver (`_get_api_key` and the `__init__` resolution) -/

/-- The inputs `_get_api_key` reads: `env` is the value of
`os.getenv("OPENAI_API_KEY")`; `dotenvAvailable` records whether the
`python-dotenv` import succeeded; `envFile` is the list of lines of the local
`.env` file, `none` when opening it raises `FileNotFoundError`. -/
structure CredentialEnv where
  env : Option String
  dotenvAvailable : Bool
  envFile : Option (List String)
  deriving Repr, DecidableEq

/-- Python's `str.strip()` (no argument: strip surrounding whitespace), as
`_get_api_key` applies to environment values, file lines and key values.
Written by structural recursion over the character list so that concrete
instances evaluate. -/
def pyStrip (s : String) : String :=
  ⟨((s.data.dropWhile Char.isWhitespace).reverse.dropWhile
      Char.isWhitespace).reverse⟩

/-- Python's `s.startswith(p)`, by structural recursion over characters. -/
def strStartsWith (s p : String) : Bool :=
  p.data.isPrefixOf s.data

/-- Python's `line.split("=", 1)[1]`: everything after the first `=`
(the call sites guarantee a `=` is present). -/
def afterFirstEq (s : String) : String :=
  ⟨(s.data.dropWhile (fun c => c != '=')).drop 1⟩

/-- Method 1 of `_get_api_key` applied to an environment value: the key is
used when present and not blank (`if api_key and api_key.strip():`), and is
returned stripped. -/
def envValueKey (v : Option String) : Option String :=
  match v with
  | some k => if pyStrip k = "" then none else some (pyStrip k)
  | none => none

/-- Modelled from the spec: the `python-dotenv` library used by Method 2 of
`_get_api_key` is external to this repository; per the spec the file source
reads "`KEY=VALUE` lines, first matching key wins, lines starting with `#` or
blank lines ignored", the value "trimmed of surrounding whitespace". -/
def dotenvFileKey (lines : List String) : Option String :=
  lines.findSome? (fun line =>
    let l := pyStrip line
    if l ≠ "" ∧ strStartsWith l "#" = false then
      if strStartsWith l "OPENAI_API_KEY=" then
        some (pyStrip (afterFirstEq l))
      else none
    else none)

/-- Method 3 of `_get_api_key` (the manual `.env` read, lines 169–186):
the first stripped line that is non-blank, is not a `#` comment, starts with
`OPENAI_API_KEY=`, and whose text after the first `=` is non-empty once
stripped, yields the key. -/
def manualEnvKey (lines : List String) : Option String :=
  lines.findSome? (fun line =>
    let l := pyStrip line
    if l ≠ "" ∧ strStartsWith l "#" = false then
      if strStartsWith l "OPENAI_API_KEY=" then
        let k := pyStrip (afterFirstEq l)
        if k ≠ "" then some k else none
      else none
    else none)

/-- `ChatAgent._get_api_key`: Method 1 reads the environment variable;
Method 2 (when `python-dotenv` is importable) runs `load_dotenv()` — which
populates the environment from `.env` without overriding an existing
variable — and reads the environment again; Method 3 reads `.env` manually.
Returns `none` when every method fails. -/
def get_api_key (ce : CredentialEnv) : Option String :=
  match envValueKey ce.env with
  | some k => some k
  | none =>
    match
      (if ce.dotenvAvailable then
        envValueKey (ce.env <|> (ce.envFile.bind dotenvFileKey))
      else none) with
    | some k => some k
    | none => ce.envFile.bind manualEnvKey

/-- The credential resolution in `ChatAgent.__init__`:
`self.api_key = api_key or self._get_api_key()` — a truthy (non-empty)
explicit argument wins, untrimmed; otherwise `_get_api_key` runs.  The
constructor then exits the process when the result is falsy (`none`). -/
def resolve_api_key (api_key : Option String) (ce : CredentialEnv) :
    Option String :=
  match api_key with
  | some k => if k = "" then get_api_key ce else some k
  | none => get_api_key ce

/-! ## Concrete fixtures used by witnesses and counterexamples -/

/-- A freshly created agent with empty history
(Scenario A's `model_id="m1"`). -/
def agent0 : ChatAgent :=
  { model := "m1"
    conversation_history := []
    api_key := "sk-test-0123456789abcdef"
    system_message := initSystemMessage }

/-- A stub collaborator that always replies `"hello"`. -/
def stubOk : Completion := fun _ _ _ _ => Except.ok "hello"

/-- A stub collaborator that always replies `"r"`. -/
def stubR : Completion := fun _ _ _ _ => Except.ok "r"

/-- A stub collaborator that always raises `RateLimitError`. -/
def stubRateLimit : Completion :=
  fun _ _ _ _ => Except.error ApiError.rateLimitError

/-- Flattens a payload to an observable string (used by `echoComplete` to make
the payload a collaborator receives visible in the reply). -/
def echoString (msgs : List PayloadMessage) : String :=
  "[" ++ String.intercalate "|" (msgs.map (fun m => m.content)) ++ "]"

/-- A stub collaborator replying with a rendering of the payload it
received. -/
def echoComplete : Completion :=
  fun _ msgs _ _ => Except.ok (echoString msgs)

/-- Eleven user turns (Scenario C's first 11 turns). -/
def inputs11 : List (String × String × String) :=
  [("u1", "t1", "t2"), ("u2", "t3", "t4"), ("u3", "t5", "t6"),
   ("u4", "t7", "t8"), ("u5", "t9", "t10"), ("u6", "t11", "t12"),
   ("u7", "t13", "t14"), ("u8", "t15", "t16"), ("u9", "t17", "t18"),
   ("u10", "t19", "t20"), ("u11", "t21", "t22")]

/-- The agent after 11 successful turns: 22 accumulated history messages. -/
def agent11 : ChatAgent := runTurns agent0 stubR inputs11

/-! ## Helper lemmas about `get_response` and `runTurns` -/

theorem add_message_history (a : ChatAgent) (r c t : String) :
    (a.add_message r c t).conversation_history
      = a.conversation_history ++ [⟨r, c, t⟩] := rfl

theorem get_response_of_ok (a : ChatAgent) (complete : Completion)
    (text t1 t2 r : String)
    (h : complete a.model (a.add_message "user" text t1).requestPayload 500
          temp07 = Except.ok r) :
    a.get_response complete text t1 t2 =
      ((a.add_message "user" text t1).add_message "assistant" r t2, r) := by
  have hm : (a.add_message "user" text t1).model = a.model := rfl
  simp only [ChatAgent.get_response, hm, h]

theorem get_response_of_error (a : ChatAgent) (complete : Completion)
    (text t1 t2 : String) (e : ApiError)
    (h : complete a.model (a.add_message "user" text t1).requestPayload 500
          temp07 = Except.error e) :
    a.get_response complete text t1 t2 = (a.add_message "user" text t1, errorMessage e) := by
  have hm : (a.add_message "user" text t1).model = a.model := rfl
  simp only [ChatAgent.get_response, hm, h]

theorem get_response_history_shape (a : ChatAgent) (complete : Completion)
    (text t1 t2 : String) :
    ∃ tail, (a.get_response complete text t1 t2).1.conversation_history
      = a.conversation_history ++ (⟨"user", text, t1⟩ : Message) :: tail := by
  cases h : complete a.model (a.add_message "user" text t1).requestPayload 500
      temp07 with
  | ok r =>
      refine ⟨[⟨"assistant", r, t2⟩], ?_⟩
      rw [get_response_of_ok a complete text t1 t2 r h]
      simp [ChatAgent.add_message]
  | error e =>
      refine ⟨[], ?_⟩
      rw [get_response_of_error a complete text t1 t2 e h]
      simp [ChatAgent.add_message]

theorem runTurns_nil (a : ChatAgent) (complete : Completion) :
    runTurns a complete [] = a := rfl

theorem runTurns_cons (a : ChatAgent) (complete : Completion)
    (x : String × String × String) (xs : List (String × String × String)) :
    runTurns a complete (x :: xs)
      = runTurns ((a.get_response complete x.1 x.2.1 x.2.2).1) complete xs := rfl

theorem runTurns_append (a : ChatAgent) (complete : Completion)
    (l1 l2 : List (String × String × String)) :
    runTurns a complete (l1 ++ l2) = runTurns (runTurns a complete l1) complete l2 := by
  simp [runTurns, List.foldl_append]

theorem runTurns_length (complete : Completion)
    (hok : ∀ m ms mt t, ∃ r, complete m ms mt t = Except.ok r) :
    ∀ (inputs : List (String × String × String)) (a : ChatAgent),
      (runTurns a complete inputs).conversation_history.length
        = a.conversation_history.length + 2 * inputs.length := by
  intro inputs
  induction inputs with
  | nil => intro a; simp [runTurns]
  | cons x xs ih =>
      intro a
      obtain ⟨r, hr⟩ :=
        hok a.model ((a.add_message "user" x.1 x.2.1).requestPayload) 500 temp07
      rw [runTurns_cons, ih, get_response_of_ok a complete x.1 x.2.1 x.2.2 r hr]
      simp [ChatAgent.add_message]
      omega

theorem runTurns_history_extends (complete : Completion) :
    ∀ (inputs : List (String × String × String)) (a : ChatAgent),
      a.conversation_history <+: (runTurns a complete inputs).conversation_history := by
  intro inputs
  induction inputs with
  | nil => intro a; exact ⟨[], by simp [runTurns]⟩
  | cons x xs ih =>
      intro a
      rw [runTurns_cons]
      obtain ⟨tail, htail⟩ := get_response_history_shape a complete x.1 x.2.1 x.2.2
      obtain ⟨t2, ht2⟩ := ih ((a.get_response complete x.1 x.2.1 x.2.2).1)
      exact ⟨(⟨"user", x.1, x.2.1⟩ : Message) :: tail ++ t2,
        by rw [← ht2, htail, List.append_assoc]⟩

/-! ## Claim theorems -/

/-- Claim C3: For every non-empty input, when the completion collaborator fails
with any error (authentication failure, rate limiting, or any other error),
`get_response` appends exactly one message (the user's) and zero assistant
messages to history, and returns the formatted human-readable error string
instead of raising. -/
theorem failed_turn_appends_only_user (a : ChatAgent) (complete : Completion)
    (text t1 t2 : String) (e : ApiError)
    (hne : pyStrip text ≠ "")
    (herr : complete a.model (a.add_message "user" text t1).requestPayload 500
              temp07 = Except.error e) :
    (a.get_response complete text t1 t2).1.conversation_history
      = a.conversation_history ++ [⟨"user", text, t1⟩]
    ∧ (a.get_response complete text t1 t2).2 = errorMessage e := by
  rw [get_response_of_error a complete text t1 t2 e herr]
  exact ⟨by simp [ChatAgent.add_message], rfl⟩

/-- Witness for `failed_turn_appends_only_user`: Scenario B, a rate-limited
turn on the fresh agent. -/
theorem failed_turn_appends_only_user_witness :
    pyStrip "hi" ≠ ""
    ∧ ((agent0.get_response stubRateLimit "hi" "t1" "t2").1.conversation_history
        = agent0.conversation_history ++ [⟨"user", "hi", "t1"⟩]
      ∧ (agent0.get_response stubRateLimit "hi" "t1" "t2").2
          = errorMessage ApiError.rateLimitError) :=
  ⟨by decide,
    failed_turn_appends_only_user agent0 stubRateLimit "hi" "t1" "t2"
      ApiError.rateLimitError (by decide) rfl⟩

/-- Claim C4: For every history, the request payload has the system message as
its first element, followed by at most 10 trailing history messages in
insertion order (a suffix of the history), and every transmitted message is a
history message stripped down to `role` and `content`. -/
theorem payload_shape (a : ChatAgent) :
    a.requestPayload.head? = some a.system_message
    ∧ a.requestPayload.tail.length ≤ 10
    ∧ a.requestPayload.tail
        = (a.conversation_history.map stripTimestamp).drop
            (a.conversation_history.length - 10)
    ∧ a.requestPayload.tail <:+ a.conversation_history.map stripTimestamp
    ∧ ∀ p ∈ a.requestPayload.tail, ∃ m ∈ a.conversation_history,
        p = stripTimestamp m := by
  refine ⟨rfl, ?_, ?_, ?_, ?_⟩
  · simp [ChatAgent.requestPayload]
    omega
  · simp [ChatAgent.requestPayload]
  · simp only [ChatAgent.requestPayload, List.tail_cons, List.map_drop]
    exact List.drop_suffix _ _
  · intro p hp
    simp only [ChatAgent.requestPayload, List.tail_cons, List.mem_map] at hp
    obtain ⟨m, hm, hsm⟩ := hp
    exact ⟨m, List.mem_of_mem_drop hm, hsm.symm⟩

/-- Claim C6: `clear_history` always results in a history of length 0, is
idempotent, and leaves the system prompt and the model id unchanged. -/
theorem clear_history_resets (a : ChatAgent) :
    (a.clear_history).conversation_history.length = 0
    ∧ a.clear_history.clear_history = a.clear_history
    ∧ (a.clear_history).system_message = a.system_message
    ∧ (a.clear_history).model = a.model :=
  ⟨rfl, rfl, rfl, rfl⟩

/-- Claim C7: A non-empty explicit credential value supplied at session creation
resolves to exactly that value, for any contents of the environment and the
credential file: two runs with the same explicit value but different
environment/file contents resolve the same credential. -/
theorem explicit_credential_wins (k : String) (ce ce' : CredentialEnv)
    (h : k ≠ "") :
    resolve_api_key (some k) ce = some k
    ∧ resolve_api_key (some k) ce = resolve_api_key (some k) ce' := by
  constructor <;> simp [resolve_api_key, h]

/-- Witness for `explicit_credential_wins`: the same explicit value against two
different environments resolves identically, ignoring both the environment
variable and the file. -/
theorem explicit_credential_wins_witness :
    "sk-explicit" ≠ ""
    ∧ (resolve_api_key (some "sk-explicit")
          ⟨some "sk-env", true, some ["OPENAI_API_KEY=sk-file"]⟩
        = some "sk-explicit"
      ∧ resolve_api_key (some "sk-explicit")
          ⟨some "sk-env", true, some ["OPENAI_API_KEY=sk-file"]⟩
        = resolve_api_key (some "sk-explicit") ⟨none, false, none⟩) :=
  ⟨by decide,
    explicit_credential_wins "sk-explicit"
      ⟨some "sk-env", true, some ["OPENAI_API_KEY=sk-file"]⟩
      ⟨none, false, none⟩ (by decide)⟩

/-- Claim C8: Scenario D: with no explicit value and no environment variable, a
credential file with leading comment line `# my key` followed by
`OPENAI_API_KEY=sk-test123` resolves to `"sk-test123"` (whether or not the
dotenv import is available); surrounding whitespace is trimmed, comment and
blank lines are skipped, and (in the manual file read, Method 3) the first
matching key wins. -/
theorem credential_file_scenario :
    (∀ flag : Bool,
      get_api_key ⟨none, flag, some ["# my key", "OPENAI_API_KEY=sk-test123"]⟩
        = some "sk-test123")
    ∧ (∀ flag : Bool,
      get_api_key
          ⟨none, flag, some ["# my key", "", "OPENAI_API_KEY=   sk-test123   "]⟩
        = some "sk-test123")
    ∧ get_api_key
        ⟨none, false,
          some ["# c", "OPENAI_API_KEY=sk-test123", "OPENAI_API_KEY=sk-other"]⟩
      = some "sk-test123"
    ∧ manualEnvKey ["OPENAI_API_KEY=sk-test123", "OPENAI_API_KEY=sk-other"]
      = some "sk-test123" := by
  refine ⟨fun flag => ?_, fun flag => ?_, by decide, by decide⟩ <;>
    (cases flag <;> decide)

/-- Claim C9: Displaying history is display-only: `show_history` leaves the
agent state (hence the stored contents and every later request payload)
unchanged, and each display line truncates the content to its first 100
characters with an `"..."` marker exactly when the original exceeds 100
characters. -/
theorem show_history_display_only (a : ChatAgent) :
    (a.show_history).1 = a
    ∧ (a.show_history).1.conversation_history = a.conversation_history
    ∧ (∀ complete text t1 t2,
        (a.show_history).1.get_response complete text t1 t2
          = a.get_response complete text t1 t2)
    ∧ (∀ i m, historyLine i m
        = toString i ++ ". " ++ titleCase m.role ++ ": " ++
            (if m.content.length > 100 then m.content.take 100 ++ "..."
             else m.content)) := by
  have h1 : (a.show_history).1 = a := by
    cases h : a.conversation_history.isEmpty <;>
      simp [ChatAgent.show_history, h]
  exact ⟨h1, by rw [h1], fun complete text t1 t2 => by rw [h1],
    fun i m => rfl⟩

/-- Claim C1, counterexample: The claim fails on the code: `get_response` has no
empty-input check at all.  Submitting the empty string to a fresh agent
appends a user message (the state changes) and sends a request to the
collaborator (whose reply is recorded and returned); no `InvalidInput`
failure exists. -/
theorem empty_input_counterexample :
    (agent0.get_response stubOk "" "t1" "t2").1.conversation_history
        ≠ agent0.conversation_history
    ∧ (agent0.get_response stubOk "" "t1" "t2").1.conversation_history
        = [⟨"user", "", "t1"⟩, ⟨"assistant", "hello", "t2"⟩]
    ∧ (agent0.get_response stubOk "" "t1" "t2").2 = "hello"
    ∧ pyStrip "" = "" := by
  refine ⟨?_, rfl, rfl, rfl⟩
  decide

/-- Claim C1, amended: For every input text that is empty after trimming
whitespace, `get_response` performs no empty-input check: it appends the user
message to history and sends the request to the collaborator exactly as for
any other turn (shown for a collaborator replying `r`: the reply is appended
and returned).  Empty input is only filtered by the surrounding CLI loop,
before `get_response` is called. -/
theorem empty_input_no_check (a : ChatAgent) (complete : Completion)
    (text t1 t2 r : String) (hempty : pyStrip text = "")
    (hok : complete a.model (a.add_message "user" text t1).requestPayload 500
            temp07 = Except.ok r) :
    (a.get_response complete text t1 t2).1.conversation_history
      = a.conversation_history ++ [⟨"user", text, t1⟩, ⟨"assistant", r, t2⟩]
    ∧ (a.get_response complete text t1 t2).2 = r := by
  rw [get_response_of_ok a complete text t1 t2 r hok]
  exact ⟨by simp [ChatAgent.add_message], rfl⟩

/-- Witness for `empty_input_no_check`: the empty input on the fresh agent. -/
theorem empty_input_no_check_witness :
    pyStrip "" = ""
    ∧ ((agent0.get_response stubOk "" "t1" "t2").1.conversation_history
        = agent0.conversation_history ++
            [⟨"user", "", "t1"⟩, ⟨"assistant", "hello", "t2"⟩]
      ∧ (agent0.get_response stubOk "" "t1" "t2").2 = "hello") :=
  ⟨rfl, empty_input_no_check agent0 stubOk "" "t1" "t2" "hello" rfl rfl⟩

/-- Claim C2, counterexample: After 11 successful turns (22 accumulated history
messages, window N = 10), the 12th request payload is **not** the system
message followed by the accumulated messages at insertion-order indices 13–22:
`get_response` appends the 12th user message before slicing, so the payload is
the system message, the accumulated messages at indices 14–22, and the new
user message.  Observed through a collaborator echoing the payload it
receives. -/
theorem twelfth_payload_counterexample :
    agent11.conversation_history.length = 22
    ∧ (agent11.get_response echoComplete "u12" "t23" "t24").2
        ≠ echoString (agent11.system_message ::
            (agent11.conversation_history.drop 12).map stripTimestamp)
    ∧ (agent11.get_response echoComplete "u12" "t23" "t24").2
        = echoString (agent11.system_message ::
            ((agent11.conversation_history.drop 13).map stripTimestamp ++
              [⟨"user", "u12"⟩])) := by
  refine ⟨by decide, by decide, by decide⟩

/-- Claim C2, amended: With 22 accumulated history messages and window N = 10,
the payload built for the next `get_response` call consists of the system
message followed by the accumulated messages at insertion-order indices 14–22
(timestamps stripped) plus the newly appended 12th user message — the last 10
of the 23 messages present after the append — and not all 22. -/
theorem twelfth_payload (a : ChatAgent) (text t1 : String)
    (h : a.conversation_history.length = 22) :
    (a.add_message "user" text t1).requestPayload
      = a.system_message ::
          ((a.conversation_history.drop 13).map stripTimestamp ++
            [⟨"user", text⟩]) := by
  simp only [ChatAgent.requestPayload, ChatAgent.add_message,
    List.length_append, h, List.length_cons, List.length_nil]
  rw [List.drop_append_of_le_length (by omega), List.map_append]
  rfl

/-- Witness for `twelfth_payload`: the agent after 11 successful turns. -/
theorem twelfth_payload_witness :
    agent11.conversation_history.length = 22
    ∧ (agent11.add_message "user" "u12" "t23").requestPayload
        = agent11.system_message ::
            ((agent11.conversation_history.drop 13).map stripTimestamp ++
              [⟨"user", "u12"⟩]) :=
  ⟨by decide, twelfth_payload agent11 "u12" "t23" (by decide)⟩

/-- Claim C5: For every sequence of successful `get_response` calls starting
from an empty history: the final history length is twice the number of calls;
the history after any prefix of the calls is a prefix of the final history
(insertion order preserved); and each call appends exactly one user message
followed by one assistant message. -/
theorem successful_turns_history (a : ChatAgent) (complete : Completion)
    (hok : ∀ m ms mt t, ∃ r, complete m ms mt t = Except.ok r)
    (h0 : a.conversation_history = [])
    (inputs : List (String × String × String)) :
    (runTurns a complete inputs).conversation_history.length = 2 * inputs.length
    ∧ (∀ pre suf, inputs = pre ++ suf →
        (runTurns a complete pre).conversation_history <+:
          (runTurns a complete inputs).conversation_history)
    ∧ (∀ pre x suf, inputs = pre ++ x :: suf → ∃ r,
        (runTurns a complete (pre ++ [x])).conversation_history =
          (runTurns a complete pre).conversation_history ++
            [⟨"user", x.1, x.2.1⟩, ⟨"assistant", r, x.2.2⟩]) := by
  refine ⟨?_, ?_, ?_⟩
  · rw [runTurns_length complete hok inputs a, h0]
    simp
  · intro pre suf hps
    subst hps
    rw [runTurns_append]
    exact runTurns_history_extends complete suf _
  · intro pre x suf hps
    obtain ⟨r, hr⟩ :=
      hok (runTurns a complete pre).model
        ((runTurns a complete pre).add_message "user" x.1 x.2.1).requestPayload
        500 temp07
    refine ⟨r, ?_⟩
    rw [runTurns_append,
      show runTurns (runTurns a complete pre) complete [x]
        = ((runTurns a complete pre).get_response complete x.1 x.2.1 x.2.2).1
        from rfl,
      get_response_of_ok _ _ _ _ _ _ hr]
    simp [ChatAgent.add_message]

/-- Witness for `successful_turns_history`: two successful turns on the fresh
agent give a history of length 4. -/
theorem successful_turns_history_witness :
    (runTurns agent0 stubOk
        [("hi", "t1", "t2"), ("again", "t3", "t4")]).conversation_history.length
      = 2 * 2 :=
  (successful_turns_history agent0 stubOk (fun _ _ _ _ => ⟨"hello", rfl⟩) rfl
    [("hi", "t1", "t2"), ("again", "t3", "t4")]).1

/-- Claim C10: An explicitly supplied credential that is the empty string is
treated as absent: resolution falls through to the environment and file
sources exactly as if no explicit value had been passed (the explicit value is
tested for truthiness, not presence). -/
theorem empty_explicit_credential_ignored (ce : CredentialEnv) :
    resolve_api_key (some "") ce = resolve_api_key none ce
    ∧ resolve_api_key none ce = get_api_key ce :=
  ⟨rfl, rfl⟩

end ChatAgentModel
